import Mathlib

/-!
Verification of the CampusBuddy server against its natural-language
specification.  The definitions below are shallow embeddings of the
request handlers in `src/server/src/routes/chat.ts`,
`src/server/src/routes/announcements.ts`, `src/server/src/routes/users.ts`
(users list and the lost-and-found routes), the badge routes, and the
realtime handlers in `src/server/src/socket/handlers.ts`.  The document
store is modelled as explicit lists of documents; `Date.now()` and
generated document ids are passed in as parameters; a request that the
handler rejects is an `Except.error` carrying the handler's error string.
-/

/-- Badge document: catalog entry, or an earned copy embedded in a user
profile (`earnedAt` is the award timestamp; `0` on catalog entries). -/
structure Badge where
  id : String
  name : String
  description : String
  icon : String
  category : String
  earnedAt : Nat
deriving DecidableEq

/-- User profile document from `shared/types.ts` (the fields the server
handlers read or write). -/
structure User where
  id : String
  name : String
  email : String
  batch : String
  role : String
  points : Nat
  badges : List Badge
deriving DecidableEq

/-- Reaction entry stored inside a message document: an emoji, the ids of
the users who reacted with it, and a count field. -/
structure Reaction where
  emoji : String
  userIds : List String
  count : Nat
deriving DecidableEq

/-- Chat message document. -/
structure Message where
  id : String
  content : String
  authorId : String
  authorName : String
  authorBatch : String
  timestamp : Nat
  edited : Bool := false
  editedAt : Option Nat := none
  reactions : List Reaction
deriving DecidableEq

/-- Announcement document. -/
structure Announcement where
  id : String
  title : String
  content : String
  authorId : String
  priority : String
  timestamp : Nat
  expiresAt : Nat
  views : Nat
  likes : Int
  societyName : Option String := none
deriving DecidableEq

/-- Lost-and-found item document. -/
structure LostFoundItem where
  id : String
  title : String
  description : String
  category : String
  status : String
  reporterId : String
  location : String
  contactInfo : String
  timestamp : Nat
  resolvedAt : Option Nat := none
  resolvedBy : Option String := none
deriving DecidableEq

/-- Activity-log entry written to the `userActivities` collection. -/
structure UserActivity where
  userId : String
  type : String
  description : String
  points : Nat
  timestamp : Nat
deriving DecidableEq

/-- Paginated list envelope `(data, total, page, limit, hasMore)` returned
by the list endpoints. -/
structure PaginatedResponse (α : Type) where
  data : List α
  total : Nat
  page : Nat
  limit : Nat
  hasMore : Bool
deriving DecidableEq

/-- Comparator for the `orderBy timestamp desc` document-store query. -/
def byTimestampDesc (a b : Message) : Bool :=
  decide (b.timestamp ≤ a.timestamp)

/-- Optional `before` filter of `GET /chat/messages`: keep the messages
with `timestamp < before`. -/
def applyBefore (before : Option Nat) (stored : List Message) : List Message :=
  match before with
  | some b => stored.filter (fun m => decide (m.timestamp < b))
  | none => stored

/-- Embedding of `GET /chat/messages` (chat.ts lines 11-61): fetch at most
`limit` messages ordered by descending timestamp (after the optional
`before` filter), set `total` to the size of that snapshot, reverse into
chronological order, and report `hasMore` as `total === limit`. -/
def getChatMessages (stored : List Message) (page limit : Nat)
    (before : Option Nat) : PaginatedResponse Message :=
  let fetched := ((applyBefore before stored).mergeSort byTimestampDesc).take limit
  let total := fetched.length
  { data := fetched.reverse, total := total, page := page, limit := limit,
    hasMore := total == limit }

/-- Embedding of `GET /users` (users.ts lines 9-59): equality filters on
batch and role, a count query for `total`, then an offset/limit page, with
`hasMore = offset + limit < total`. -/
def getUsersList (stored : List User) (page limit : Nat)
    (batch role : Option String) : PaginatedResponse User :=
  let filtered := stored.filter (fun u =>
    (match batch with | some b => u.batch == b | none => true) &&
    (match role with | some r => u.role == r | none => true))
  let total := filtered.length
  let offset := (page - 1) * limit
  { data := (filtered.drop offset).take limit, total := total, page := page,
    limit := limit, hasMore := decide (offset + limit < total) }

/-- Embedding of `GET /announcements` (announcements.ts lines 9-71):
filters on priority, society name and unexpired `expiresAt`, descending
timestamp order, a count query for `total`, then an offset/limit page,
with `hasMore = (page - 1) * limit + limit < total`. -/
def getAnnouncements (stored : List Announcement) (page limit now : Nat)
    (priority societyName : Option String) : PaginatedResponse Announcement :=
  let filtered := (stored.filter (fun a =>
    (match priority with | some p => a.priority == p | none => true) &&
    (match societyName with | some s => a.societyName == some s | none => true) &&
    decide (now < a.expiresAt))).mergeSort
      (fun a b => decide (b.timestamp ≤ a.timestamp))
  let total := filtered.length
  let offset := (page - 1) * limit
  { data := (filtered.drop offset).take limit, total := total, page := page,
    limit := limit, hasMore := decide ((page - 1) * limit + limit < total) }

/-- Sample message used as the concrete input of counterexamples and
witnesses. -/
def mA : Message :=
  { id := "m1", content := "hello", authorId := "ua", authorName := "Aley",
    authorBatch := "2022", timestamp := 5, reactions := [] }

/-- Helper: the length of an offset/limit page of a list. -/
theorem length_drop_take {α : Type} (l : List α) (o k : Nat) :
    ((l.drop o).take k).length = min k (l.length - o) := by
  simp [List.length_take, List.length_drop]

/-- Helper: the descending mergeSort used to model `orderBy timestamp desc`
is pairwise sorted by descending timestamp. -/
theorem pairwise_mergeSort_byTimestampDesc (l : List Message) :
    List.Pairwise (fun a b : Message => b.timestamp ≤ a.timestamp)
      (l.mergeSort byTimestampDesc) := by
  have h := @List.sorted_mergeSort Message byTimestampDesc
    (fun a b c hab hbc => by simp [byTimestampDesc] at *; omega)
    (fun a b => by simp [byTimestampDesc]; omega) l
  simpa [byTimestampDesc] using h

/-- Claim C1 counterexample: on `GET /chat/messages` with one stored
message, `page = 1` and `limit = 1`, the endpoint reports `hasMore = true`
even though `(page - 1) * limit + returned_count < total` is false (the
returned `total` is the page size itself), refuting the claimed
biconditional. -/
theorem chat_hasMore_formula_counterexample :
    (getChatMessages [mA] 1 1 none).hasMore = true ∧
    ¬ ((1 - 1) * 1 + (getChatMessages [mA] 1 1 none).data.length <
        (getChatMessages [mA] 1 1 none).total) := by
  constructor <;> simp [getChatMessages, applyBefore, List.mergeSort_singleton]

/-- Claim C1 (amended): every paginated list endpoint returns at most
`limit` items; for the users and announcements endpoints `hasMore` is true
iff `(page - 1) * limit + returned_count < total`; the chat-messages
endpoint instead sets `total` to the returned count itself and reports
`hasMore` iff the returned count equals `limit`. -/
theorem pagination_contract (messagesStored : List Message)
    (usersStored : List User) (annStored : List Announcement)
    (page limit now : Nat) (before : Option Nat)
    (batch role priority soc : Option String) :
    (getChatMessages messagesStored page limit before).data.length ≤ limit ∧
    (getChatMessages messagesStored page limit before).total
      = (getChatMessages messagesStored page limit before).data.length ∧
    ((getChatMessages messagesStored page limit before).hasMore = true ↔
      (getChatMessages messagesStored page limit before).data.length = limit) ∧
    (getUsersList usersStored page limit batch role).data.length ≤ limit ∧
    ((getUsersList usersStored page limit batch role).hasMore = true ↔
      (page - 1) * limit + (getUsersList usersStored page limit batch role).data.length
        < (getUsersList usersStored page limit batch role).total) ∧
    (getAnnouncements annStored page limit now priority soc).data.length ≤ limit ∧
    ((getAnnouncements annStored page limit now priority soc).hasMore = true ↔
      (page - 1) * limit
          + (getAnnouncements annStored page limit now priority soc).data.length
        < (getAnnouncements annStored page limit now priority soc).total) := by
  refine ⟨?_, ?_, ?_, ?_, ?_, ?_, ?_⟩
  · simp [getChatMessages, List.length_take]
  · simp [getChatMessages]
  · simp [getChatMessages]
  · simp [getUsersList, List.length_take]
  · simp only [getUsersList, length_drop_take, decide_eq_true_eq]
    omega
  · simp [getAnnouncements, List.length_take]
  · simp only [getAnnouncements, length_drop_take, decide_eq_true_eq]
    omega

/-- Claim C10: the chat message list returns the `limit` most recent
messages among the stored messages passing the optional `before` filter,
in ascending timestamp order: the page length is `min limit
(filtered count)`, the page is ascending, every returned message is a
filtered stored message, and every filtered message left out has a
timestamp at most that of every returned message. -/
theorem getChatMessages_returns_most_recent (stored : List Message)
    (page limit : Nat) (before : Option Nat) :
    (getChatMessages stored page limit before).data.length
        = min limit (applyBefore before stored).length ∧
    List.Pairwise (fun a b : Message => a.timestamp ≤ b.timestamp)
      (getChatMessages stored page limit before).data ∧
    (∀ m ∈ (getChatMessages stored page limit before).data,
        m ∈ applyBefore before stored) ∧
    (∀ m ∈ applyBefore before stored,
        m ∉ (getChatMessages stored page limit before).data →
        ∀ x ∈ (getChatMessages stored page limit before).data,
          m.timestamp ≤ x.timestamp) := by
  have hdata : (getChatMessages stored page limit before).data
      = (((applyBefore before stored).mergeSort byTimestampDesc).take limit).reverse := rfl
  have hpair := pairwise_mergeSort_byTimestampDesc (applyBefore before stored)
  have hsplit := List.take_append_drop limit
    ((applyBefore before stored).mergeSort byTimestampDesc)
  have hperm := List.mergeSort_perm (applyBefore before stored) byTimestampDesc
  have hcross : ∀ a ∈ ((applyBefore before stored).mergeSort byTimestampDesc).take limit,
      ∀ b ∈ ((applyBefore before stored).mergeSort byTimestampDesc).drop limit,
      b.timestamp ≤ a.timestamp := by
    have := hpair
    rw [← hsplit] at this
    exact (List.pairwise_append.mp this).2.2
  refine ⟨?_, ?_, ?_, ?_⟩
  · rw [hdata]
    simp [List.length_take, List.length_mergeSort]
  · rw [hdata, List.pairwise_reverse]
    exact List.Pairwise.sublist (List.take_sublist _ _) hpair
  · intro m hm
    rw [hdata, List.mem_reverse] at hm
    exact hperm.mem_iff.mp ((List.take_sublist _ _).subset hm)
  · intro m hm hnot x hx
    rw [hdata, List.mem_reverse] at hnot hx
    have hmem : m ∈ ((applyBefore before stored).mergeSort byTimestampDesc).take limit
        ∨ m ∈ ((applyBefore before stored).mergeSort byTimestampDesc).drop limit := by
      rw [← List.mem_append, hsplit]
      exact hperm.mem_iff.mpr hm
    rcases hmem with h | h
    · exact absurd h hnot
    · exact hcross x hx m h

/-- Witness for C10: the dominance clause applied at the concrete
singleton store, giving the ground fact that the returned message is among
the filtered stored messages. -/
theorem getChatMessages_returns_most_recent_witness :
    mA ∈ applyBefore none [mA] :=
  (getChatMessages_returns_most_recent [mA] 1 1 none).2.2.1 mA
    (by simp [getChatMessages, applyBefore, List.mergeSort_singleton])

/-- Embedding of the `message:reaction` handler (handlers.ts lines
268-331) acting on a message's stored reactions list: the first entry
whose emoji matches is updated — the caller's id is removed (first
occurrence, and the entry is dropped when its user list empties) if
present, appended otherwise, with `count` recomputed as the user-list
length — and when no entry matches, a fresh entry `(emoji, [uid], 1)` is
appended at the end. -/
def toggleReaction (uid emoji : String) : List Reaction → List Reaction
  | [] => [⟨emoji, [uid], 1⟩]
  | r :: rest =>
    if r.emoji == emoji then
      if uid ∈ r.userIds then
        let newIds := r.userIds.erase uid
        if newIds.length == 0 then rest
        else ⟨r.emoji, newIds, newIds.length⟩ :: rest
      else
        ⟨r.emoji, r.userIds ++ [uid], (r.userIds ++ [uid]).length⟩ :: rest
    else
      r :: toggleReaction uid emoji rest

/-- Claim C2 counterexample: if user `u` already reacted with the emoji,
toggling twice removes `u` and re-appends it at the end of the entry's
user list, so the stored reactions list does not return to its prior
state: from `[(A, [u, w], 2)]` the double toggle produces
`[(A, [w, u], 2)]`. -/
theorem toggleReaction_roundtrip_counterexample :
    toggleReaction "u" "A" (toggleReaction "u" "A" [⟨"A", ["u", "w"], 2⟩])
        = [⟨"A", ["w", "u"], 2⟩] ∧
    [⟨"A", ["w", "u"], 2⟩] ≠ ([⟨"A", ["u", "w"], 2⟩] : List Reaction) := by
  decide

/-- Claim C2 (amended): when the toggling user holds no reaction with the
given emoji and every stored entry satisfies the count/non-empty
invariant, toggling the same `(user, emoji)` twice returns the message's
reactions list exactly to its state before the first toggle: the first
toggle adds the user to the emoji's user list (creating the entry if
absent) and the second removes it, deleting the entry entirely when its
user list empties.  (When the user already holds the reaction, only the
set of reacting users is restored, not the list order — see the
counterexample.) -/
theorem toggleReaction_roundtrip (rs : List Reaction) (uid emoji : String)
    (hinv : ∀ r ∈ rs, r.count = r.userIds.length ∧ r.userIds ≠ [])
    (hno : ∀ r ∈ rs, r.emoji = emoji → uid ∉ r.userIds) :
    toggleReaction uid emoji (toggleReaction uid emoji rs) = rs := by
  induction rs with
  | nil =>
    simp [toggleReaction]
  | cons r rest ih =>
    by_cases he : r.emoji == emoji
    · have hnomem : uid ∉ r.userIds :=
        hno r (List.mem_cons_self r rest) (by simpa using he)
      have hinvr := hinv r (List.mem_cons_self r rest)
      rw [toggleReaction]
      rw [if_pos he, if_neg hnomem]
      rw [toggleReaction]
      simp only [he, if_pos]
      have hmem : uid ∈ r.userIds ++ [uid] := by simp
      rw [if_pos hmem]
      have herase : (r.userIds ++ [uid]).erase uid = r.userIds := by
        rw [List.erase_append_right _ hnomem]
        simp
      simp only [herase]
      rw [if_neg (by simp [hinvr.2, List.length_eq_zero])]
      have hr : (⟨r.emoji, r.userIds, r.userIds.length⟩ : Reaction) = r := by
        cases r
        simp only [Reaction.mk.injEq, true_and]
        exact hinvr.1.symm
      rw [hr]
    · rw [toggleReaction, if_neg he, toggleReaction, if_neg he]
      rw [ih (fun x hx => hinv x (List.mem_cons_of_mem r hx))
            (fun x hx => hno x (List.mem_cons_of_mem r hx))]

/-- Witness for C2 (amended): the double toggle applied to a concrete
reactions list whose only entry carries a different emoji. -/
theorem toggleReaction_roundtrip_witness :
    toggleReaction "u" "A" (toggleReaction "u" "A" [⟨"B", ["v"], 1⟩])
      = [⟨"B", ["v"], 1⟩] :=
  toggleReaction_roundtrip [⟨"B", ["v"], 1⟩] "u" "A" (by decide) (by decide)

/-- Decidable form of the reactions invariant: every entry has
`count = userIds.length` and a non-empty user list. -/
def reactionsWellFormed (rs : List Reaction) : Bool :=
  rs.all (fun r => r.count == r.userIds.length && !r.userIds.isEmpty)

/-- Helper: one reaction toggle preserves the reactions invariant. -/
theorem reactionsWellFormed_toggle (uid emoji : String) (rs : List Reaction)
    (h : reactionsWellFormed rs = true) :
    reactionsWellFormed (toggleReaction uid emoji rs) = true := by
  induction rs with
  | nil => simp [toggleReaction, reactionsWellFormed]
  | cons r rest ih =>
    simp only [reactionsWellFormed, List.all_cons, Bool.and_eq_true] at h
    obtain ⟨hr, hrest⟩ := h
    rw [toggleReaction]
    by_cases he : r.emoji == emoji
    · rw [if_pos he]
      by_cases hm : uid ∈ r.userIds
      · rw [if_pos hm]
        by_cases hz : ((r.userIds.erase uid).length == 0) = true
        · simp only [if_pos hz]
          exact hrest
        · rw [if_neg hz]
          simp only [reactionsWellFormed, List.all_cons, Bool.and_eq_true]
          refine ⟨⟨by simp, ?_⟩, hrest⟩
          simp only [beq_iff_eq] at hz
          simp [List.isEmpty_iff, ← List.length_eq_zero]
          omega
      · rw [if_neg hm]
        simp only [reactionsWellFormed, List.all_cons, Bool.and_eq_true]
        exact ⟨⟨by simp, by simp⟩, hrest⟩
    · rw [if_neg he]
      simp only [reactionsWellFormed, List.all_cons, Bool.and_eq_true]
      exact ⟨hr, ih hrest⟩

/-- Claim C3: starting from the empty reactions list a message is created
with, after any sequence of reaction-toggle operations every stored entry
satisfies `count = userIds.length` and has a non-empty user list. -/
theorem reaction_invariant_all_sequences (ops : List (String × String)) :
    reactionsWellFormed
      (ops.foldl (fun rs op => toggleReaction op.1 op.2 rs) []) = true := by
  suffices h : ∀ rs, reactionsWellFormed rs = true →
      reactionsWellFormed
        (ops.foldl (fun rs op => toggleReaction op.1 op.2 rs) rs) = true by
    exact h [] rfl
  induction ops with
  | nil => intro rs h; simpa using h
  | cons op rest ih =>
    intro rs h
    exact ih _ (reactionsWellFormed_toggle op.1 op.2 rs h)

/-- Executable embedding of JavaScript `String.prototype.trim`: drop
whitespace from both ends. -/
def strTrim (s : String) : String :=
  ⟨((s.data.dropWhile Char.isWhitespace).reverse.dropWhile Char.isWhitespace).reverse⟩

/-- Server-side state touched by the chat handlers: the `users`,
`messages` and `userActivities` collections. -/
structure ChatStore where
  users : List User
  messages : List Message
  activities : List UserActivity
deriving DecidableEq

/-- Point read of the `users` collection by document id. -/
def findUser (users : List User) (uid : String) : Option User :=
  users.find? (fun u => u.id == uid)

/-- Point read of the `messages` collection by document id. -/
def findMessage (messages : List Message) (mid : String) : Option Message :=
  messages.find? (fun m => m.id == mid)

/-- Embedding of the realtime `message:send` handler (handlers.ts lines
127-183, store-available path): build the message from the connection's
cached user profile and the trimmed content, append it, overwrite the
author's points with `cachedPoints + 1`, and append one `message`
activity-log entry. -/
def socketSendMessage (st : ChatStore) (caller : User) (content : String)
    (now : Nat) (newId : String) : ChatStore × Message :=
  let message : Message :=
    { id := newId, content := strTrim content, authorId := caller.id,
      authorName := caller.name, authorBatch := caller.batch,
      timestamp := now, reactions := [] }
  let users := st.users.map (fun u =>
    if u.id == caller.id then { u with points := caller.points + 1 } else u)
  let activities := st.activities ++
    [{ userId := caller.id, type := "message",
       description := "Sent a message in chat", points := 1, timestamp := now }]
  ({ users := users, messages := st.messages ++ [message],
     activities := activities }, message)

/-- Embedding of `POST /chat/messages` (chat.ts lines 64-114,
store-available path): reject empty or whitespace-only content with a 400
error, otherwise append the message built from the caller's profile; no
point or activity side effect is performed. -/
def restSendMessage (st : ChatStore) (caller : User) (content : String)
    (now : Nat) (newId : String) : Except String (ChatStore × Message) :=
  if (strTrim content).length == 0 then
    Except.error "Message content is required"
  else
    let message : Message :=
      { id := newId, content := strTrim content, authorId := caller.id,
        authorName := caller.name, authorBatch := caller.batch,
        timestamp := now, reactions := [] }
    Except.ok ({ st with messages := st.messages ++ [message] }, message)

/-- Embedding of `PUT /chat/messages/:id` (chat.ts lines 117-171): 404
when the id is absent, 403 unless the caller authored the message,
otherwise overwrite content with the trimmed input and set the edited
flags. -/
def restEditMessage (st : ChatStore) (caller : User) (mid content : String)
    (now : Nat) : Except String (ChatStore × Message) :=
  match findMessage st.messages mid with
  | none => Except.error "Message not found"
  | some m =>
    if m.authorId != caller.id then
      Except.error "You can only edit your own messages"
    else
      let updated := { m with content := strTrim content, edited := true,
                              editedAt := some now }
      Except.ok ({ st with messages := st.messages.map (fun x =>
        if x.id == mid then updated else x) }, updated)

/-- Embedding of the realtime `message:edit` handler (handlers.ts lines
186-228): the same lookup, ownership check and update as the REST route.
-/
def socketEditMessage (st : ChatStore) (caller : User) (mid content : String)
    (now : Nat) : Except String (ChatStore × Message) :=
  match findMessage st.messages mid with
  | none => Except.error "Message not found"
  | some m =>
    if m.authorId != caller.id then
      Except.error "You can only edit your own messages"
    else
      let updated := { m with content := strTrim content, edited := true,
                              editedAt := some now }
      Except.ok ({ st with messages := st.messages.map (fun x =>
        if x.id == mid then updated else x) }, updated)

/-- Embedding of `DELETE /chat/messages/:id` (chat.ts lines 174-220): 404
when absent, 403 unless the caller is the author or an admin, otherwise
delete the document. -/
def restDeleteMessage (st : ChatStore) (caller : User) (mid : String) :
    Except String ChatStore :=
  match findMessage st.messages mid with
  | none => Except.error "Message not found"
  | some m =>
    if m.authorId != caller.id && caller.role != "admin" then
      Except.error "You can only delete your own messages"
    else
      Except.ok { st with messages := st.messages.filter (fun x => !(x.id == mid)) }

/-- Embedding of the realtime `message:delete` handler (handlers.ts lines
231-265): the same lookup, authorization and delete as the REST route. -/
def socketDeleteMessage (st : ChatStore) (caller : User) (mid : String) :
    Except String ChatStore :=
  match findMessage st.messages mid with
  | none => Except.error "Message not found"
  | some m =>
    if m.authorId != caller.id && caller.role != "admin" then
      Except.error "You can only delete your own messages"
    else
      Except.ok { st with messages := st.messages.filter (fun x => !(x.id == mid)) }

/-- Sample student profile used by concrete counterexamples and
witnesses. -/
def uA : User :=
  { id := "ua", name := "Aley", email := "aley@campus.edu", batch := "2022",
    role := "student", points := 5, badges := [] }

/-- Sample chat store holding the sample user and message. -/
def cs0 : ChatStore :=
  { users := [uA], messages := [mA], activities := [] }

/-- Message produced by the sample REST send in the C4 counterexample. -/
def mHello : Message :=
  { id := "m9", content := "Hello", authorId := "ua", authorName := "Aley",
    authorBatch := "2022", timestamp := 100, reactions := [] }

/-- Helper: a `find?` query is unaffected in shape by mapping an update
over the matching documents when the update preserves the search key. -/
theorem find?_map_update {α : Type} (l : List α) (p : α → Bool) (f : α → α)
    (hf : ∀ x, p (f x) = p x) :
    (l.map (fun x => if p x then f x else x)).find? p = (l.find? p).map f := by
  induction l with
  | nil => rfl
  | cons a t ih =>
    by_cases h : p a = true
    · simp [List.find?_cons, h, hf a]
    · simp only [Bool.not_eq_true] at h
      simp [List.find?_cons, h, hf a, ih]

/-- Claim C4 counterexample: a successful REST send (`POST
/chat/messages`) leaves the caller's stored point total at 5 and appends
no activity-log entry, refuting the claim that every successful send
through either entry point increments points by 1 and logs one `message`
activity. -/
theorem rest_send_no_side_effects_counterexample :
    restSendMessage cs0 uA "Hello" 100 "m9"
        = Except.ok ({ cs0 with messages := cs0.messages ++ [mHello] }, mHello) ∧
    (findUser ({ cs0 with messages := cs0.messages ++ [mHello] } : ChatStore).users
        "ua").map User.points = some 5 ∧
    ({ cs0 with messages := cs0.messages ++ [mHello] } : ChatStore).activities = [] := by
  refine ⟨?_, by decide, by decide⟩
  rfl

/-- Claim C4 (amended): a successful send through the realtime gateway
overwrites the author's stored point total with the gateway's cached
points + 1 — an increase of exactly 1 when the cache agrees with the
store — leaves every other profile field unchanged, and appends exactly
one activity-log entry of type `message`; a successful send through the
REST endpoint performs neither side effect. -/
theorem socket_send_awards_point (st : ChatStore) (caller u : User)
    (content : String) (now : Nat) (nid : String)
    (hu : findUser st.users caller.id = some u)
    (hpts : u.points = caller.points) :
    findUser ((socketSendMessage st caller content now nid).1).users caller.id
        = some { u with points := u.points + 1 } ∧
    ((socketSendMessage st caller content now nid).1).activities
        = st.activities ++
          [{ userId := caller.id, type := "message",
             description := "Sent a message in chat", points := 1,
             timestamp := now }] ∧
    (∀ r, restSendMessage st caller content now nid = Except.ok r →
        r.1.users = st.users ∧ r.1.activities = st.activities) := by
  refine ⟨?_, rfl, ?_⟩
  · have h := find?_map_update st.users (fun x => x.id == caller.id)
      (fun x => { x with points := caller.points + 1 }) (fun x => rfl)
    show (st.users.map (fun x =>
        if x.id == caller.id then { x with points := caller.points + 1 } else x)).find?
        (fun x => x.id == caller.id) = _
    rw [h]
    rw [show st.users.find? (fun x => x.id == caller.id) = some u from hu]
    simp [hpts]
  · intro r h
    rw [restSendMessage] at h
    by_cases hc : ((strTrim content).length == 0) = true
    · rw [if_pos hc] at h
      exact absurd h (by simp)
    · rw [if_neg hc] at h
      obtain rfl := (Except.ok.injEq _ _).mp h.symm
      exact ⟨rfl, rfl⟩

/-- Witness for C4 (amended): the gateway send at the sample store, whose
cached profile matches the stored one, yields points 6 and the single
logged `message` activity. -/
theorem socket_send_awards_point_witness :
    findUser ((socketSendMessage cs0 uA "Hello" 100 "m9").1).users "ua"
        = some { uA with points := 6 } :=
  (socket_send_awards_point cs0 uA uA "Hello" 100 "m9" (by decide) rfl).1

/-- Claim C5 counterexample: on whitespace-only content the two entry
points disagree — the REST route rejects the send with a validation
error, while the realtime gateway accepts it, stores a message with empty
content, and logs an activity — refuting the claim that every message
operation is treated identically by the two entry points. -/
theorem send_entry_points_disagree_counterexample :
    restSendMessage cs0 uA "   " 100 "m9"
        = Except.error "Message content is required" ∧
    (socketSendMessage cs0 uA "   " 100 "m9").2.content = "" ∧
    (socketSendMessage cs0 uA "   " 100 "m9").1.activities.length
        = cs0.activities.length + 1 := by
  refine ⟨rfl, by decide, by decide⟩

/-- Claim C5 (amended): the edit and delete operations apply identical
validation, authorization and update rules through the REST routes and
the realtime gateway; the send operation differs between the two entry
points (content validation and point/activity side effects — see the
counterexample), and reactions exist only on the gateway. -/
theorem edit_delete_entry_points_agree (st : ChatStore) (caller : User)
    (mid content : String) (now : Nat) :
    restEditMessage st caller mid content now
        = socketEditMessage st caller mid content now ∧
    restDeleteMessage st caller mid = socketDeleteMessage st caller mid :=
  ⟨rfl, rfl⟩

/-- Server-side state touched by the lost-and-found handlers. -/
structure LFStore where
  items : List LostFoundItem
  users : List User
deriving DecidableEq

/-- Point read of the `lostFoundItems` collection by document id. -/
def findItem (items : List LostFoundItem) (iid : String) : Option LostFoundItem :=
  items.find? (fun it => it.id == iid)

/-- Embedding of `POST /lost-found/:id/return` (lost-and-found routes,
lines 467-538): 404 when the id is absent; 400 with no write when the item
is already returned; otherwise set status `returned` with resolution
metadata, award 10 points to the reporter (by a fresh read of the stored
profile) and, when distinct, overwrite the resolver's points with the
caller's cached points + 10.  The result pairs the (possibly unchanged)
store with the response. -/
def markItemReturned (st : LFStore) (caller : User) (iid : String)
    (now : Nat) : LFStore × Except String LostFoundItem :=
  match findItem st.items iid with
  | none => (st, Except.error "Item not found")
  | some item =>
    if item.status == "returned" then
      (st, Except.error "Item is already marked as returned")
    else
      let updatedItem := { item with
        status := "returned", resolvedAt := some now,
        resolvedBy := some caller.id }
      let items := st.items.map (fun x => if x.id == iid then updatedItem else x)
      let usersAfterReporter := st.users.map (fun u =>
        if u.id == item.reporterId then { u with points := u.points + 10 } else u)
      let users :=
        if caller.id != item.reporterId then
          usersAfterReporter.map (fun u =>
            if u.id == caller.id then { u with points := caller.points + 10 } else u)
        else usersAfterReporter
      ({ items := items, users := users }, Except.ok updatedItem)

/-- Helper: a `find?` query after replacing every matching document with a
fixed document that itself matches returns that document when the original
query succeeded. -/
theorem find?_map_replace {α : Type} (l : List α) (p : α → Bool) (c : α)
    (hc : p c = true) :
    (l.map (fun x => if p x then c else x)).find? p
      = (l.find? p).map (fun _ => c) := by
  induction l with
  | nil => rfl
  | cons a t ih =>
    by_cases h : p a = true
    · simp [List.find?_cons, h, hc]
    · simp only [Bool.not_eq_true] at h
      simp [List.find?_cons, h, ih]

/-- Claim C6: marking a lost-found item returned is a terminal transition:
when the stored item already has status `returned` the handler replies
with an error and the store (hence the item and all its fields) is
unchanged; when its status is `lost` or `found` the handler succeeds and
the stored document's status becomes `returned`. -/
theorem markItemReturned_terminal (st : LFStore) (caller : User)
    (iid : String) (now : Nat) (item : LostFoundItem)
    (hfind : findItem st.items iid = some item) :
    (item.status = "returned" →
      markItemReturned st caller iid now
        = (st, Except.error "Item is already marked as returned")) ∧
    (item.status = "lost" ∨ item.status = "found" →
      (markItemReturned st caller iid now).2
          = Except.ok { item with
              status := "returned", resolvedAt := some now,
              resolvedBy := some caller.id } ∧
      findItem (markItemReturned st caller iid now).1.items iid
          = some { item with
              status := "returned", resolvedAt := some now,
              resolvedBy := some caller.id }) := by
  have hfind2 : st.items.find? (fun it => it.id == iid) = some item := hfind
  have hid : (item.id == iid) = true := @List.find?_some LostFoundItem (fun it => it.id == iid) item st.items hfind2
  constructor
  · intro hret
    simp only [markItemReturned, hfind]
    rw [if_pos (by simp [hret])]
  · intro hs
    have hne : (item.status == "returned") = false := by
      rcases hs with h | h <;> simp [h]
    simp only [markItemReturned, hfind]
    rw [if_neg (by simp [hne])]
    refine ⟨rfl, ?_⟩
    show (st.items.map (fun x =>
        if x.id == iid then { item with
          status := "returned", resolvedAt := some now,
          resolvedBy := some caller.id } else x)).find?
        (fun it => it.id == iid) = _
    rw [find?_map_replace st.items (fun it => it.id == iid) _ (by simpa using hid)]
    rw [hfind2]
    rfl

/-- Sample lost item and store used by the C6 witness. -/
def itemL : LostFoundItem :=
  { id := "lf1", title := "Wallet", description := "Black wallet",
    category := "accessories", status := "lost", reporterId := "ua",
    location := "Library", contactInfo := "mail", timestamp := 10 }

/-- Sample lost-and-found store. -/
def lf0 : LFStore :=
  { items := [itemL], users := [uA] }

/-- Witness for C6: marking the sample lost item returned succeeds and the
stored document's status becomes `returned`; its hypotheses are discharged
at the concrete store. -/
theorem markItemReturned_terminal_witness :
    (markItemReturned lf0 uA "lf1" 50).2
        = Except.ok { itemL with
            status := "returned", resolvedAt := some 50,
            resolvedBy := some "ua" } :=
  ((markItemReturned_terminal lf0 uA "lf1" 50 itemL (by decide)).2
    (Or.inl rfl)).1

/-- Point read of the `badges` catalog collection by document id. -/
def findBadge (catalog : List Badge) (bid : String) : Option Badge :=
  catalog.find? (fun b => b.id == bid)

/-- Embedding of `POST /badges/award` (badge routes, lines 120-207):
validate presence of both ids, 404 when the user or catalog badge is
absent, 400 with no write when the user already holds a badge with that
id; otherwise append a copy of the catalog badge stamped `earnedAt = now`
to the user's badge list, add the fixed 20-point bonus to the stored
points, and append one `badge_earned` activity-log entry. -/
def awardBadge (users : List User) (catalog : List Badge)
    (activities : List UserActivity) (uid bid : String) (now : Nat) :
    List User × List UserActivity × Except String Badge :=
  if uid == "" || bid == "" then
    (users, activities, Except.error "User ID and badge ID are required")
  else
    match findUser users uid with
    | none => (users, activities, Except.error "User not found")
    | some user =>
      match findBadge catalog bid with
      | none => (users, activities, Except.error "Badge not found")
      | some badge =>
        if user.badges.any (fun b => b.id == bid) then
          (users, activities, Except.error "User already has this badge")
        else
          let earnedBadge : Badge :=
            { id := bid, name := badge.name, description := badge.description,
              icon := badge.icon, category := badge.category, earnedAt := now }
          let users := users.map (fun u =>
            if u.id == uid then
              { u with badges := user.badges ++ [earnedBadge],
                       points := user.points + 20 }
            else u)
          let activities := activities ++
            [{ userId := uid, type := "badge_earned",
               description := "Earned badge: " ++ badge.name, points := 20,
               timestamp := now }]
          (users, activities, Except.ok earnedBadge)

/-- Claim C7: awarding a badge the user already holds fails with an error
and changes neither the badge list nor the points (the stores are returned
untouched); awarding a badge not yet held appends the catalog copy stamped
with the award time, adds the fixed 20-point bonus, and appends exactly
one activity-log entry. -/
theorem awardBadge_spec (users : List User) (catalog : List Badge)
    (activities : List UserActivity) (uid bid : String) (now : Nat)
    (user : User) (badge : Badge)
    (hne : (uid == "" || bid == "") = false)
    (hu : findUser users uid = some user)
    (hb : findBadge catalog bid = some badge) :
    (user.badges.any (fun b => b.id == bid) = true →
      awardBadge users catalog activities uid bid now
        = (users, activities, Except.error "User already has this badge")) ∧
    (user.badges.any (fun b => b.id == bid) = false →
      findUser (awardBadge users catalog activities uid bid now).1 uid
          = some { user with
              badges := user.badges ++
                [{ id := bid, name := badge.name,
                   description := badge.description, icon := badge.icon,
                   category := badge.category, earnedAt := now }],
              points := user.points + 20 } ∧
      (awardBadge users catalog activities uid bid now).2.1
          = activities ++
            [{ userId := uid, type := "badge_earned",
               description := "Earned badge: " ++ badge.name, points := 20,
               timestamp := now }] ∧
      (awardBadge users catalog activities uid bid now).2.2
          = Except.ok
              { id := bid, name := badge.name,
                description := badge.description, icon := badge.icon,
                category := badge.category, earnedAt := now }) := by
  constructor
  · intro hhas
    simp only [awardBadge, hne, Bool.false_eq_true, if_false, hu, hb]
    rw [if_pos hhas]
  · intro hnot
    simp only [awardBadge, hne, Bool.false_eq_true, if_false, hu, hb]
    rw [if_neg (by simp [hnot])]
    refine ⟨?_, rfl, rfl⟩
    have h := find?_map_update users (fun u => u.id == uid)
      (fun u => { u with
        badges := user.badges ++
          [{ id := bid, name := badge.name, description := badge.description,
             icon := badge.icon, category := badge.category, earnedAt := now }],
        points := user.points + 20 }) (fun x => rfl)
    rw [show List.find? (fun u => u.id == uid) users = some user from hu] at h
    exact h

/-- Sample catalog badge used by the C7 witness. -/
def bStar : Badge :=
  { id := "b1", name := "Star", description := "Shine bright",
    icon := "star", category := "special", earnedAt := 0 }

/-- Witness for C7: awarding the sample catalog badge to the sample user,
who does not hold it, stores the earned copy and the 20-point bonus. -/
theorem awardBadge_spec_witness :
    findUser (awardBadge [uA] [bStar] [] "ua" "b1" 77).1 "ua"
        = some { uA with
            badges := [{ id := "b1", name := "Star",
                         description := "Shine bright", icon := "star",
                         category := "special", earnedAt := 77 }],
            points := 25 } :=
  ((awardBadge_spec [uA] [bStar] [] "ua" "b1" 77 uA bStar (by decide)
      (by decide) (by decide)).2 (by decide)).1

/-- Helper: erasing the first match of a predicate from a list with at
least one match removes exactly one matching element. -/
theorem countP_eraseP_of_pos {α : Type} (p : α → Bool) (l : List α)
    (h : 0 < l.countP p) :
    (l.eraseP p).countP p = l.countP p - 1 := by
  induction l with
  | nil => simp at h
  | cons a t ih =>
    by_cases ha : p a = true
    · simp [List.eraseP_cons, ha, List.countP_cons]
    · simp only [Bool.not_eq_true] at ha
      have h2 : 0 < t.countP p := by
        simpa [List.countP_cons, ha] using h
      simp [List.eraseP_cons, ha, List.countP_cons, ih h2]

/-- Helper: erasing the first match skips a prefix with no matches. -/
theorem eraseP_append_of_none {α : Type} (p : α → Bool) (l₁ l₂ : List α)
    (h : ∀ a ∈ l₁, p a = false) :
    (l₁ ++ l₂).eraseP p = l₁ ++ l₂.eraseP p := by
  induction l₁ with
  | nil => simp
  | cons a t ih =>
    have ha := h a (List.mem_cons_self a t)
    simp [List.eraseP_cons, ha, ih (fun x hx => h x (List.mem_cons_of_mem a hx))]

/-- Membership test of the `announcementLikes` collection: a record is a
`(announcementId, userId)` pair. -/
def likePred (aid uid : String) : String × String → Bool :=
  fun p => p.1 == aid && p.2 == uid

/-- Embedding of `POST /announcements/:id/like` (announcements.ts lines
278-345) acting on the like-record collection and the announcement's
`likes` counter: with no like record for the caller, insert one and set
the counter to `likes + 1` (response `liked = true`); otherwise delete the
first matching record and set the counter to `max 0 (likes - 1)`
(response `liked = false`). -/
def likeAnnouncement (records : List (String × String)) (likes : Int)
    (aid uid : String) : List (String × String) × Int × Bool :=
  let matching := records.filter (likePred aid uid)
  if matching.isEmpty then
    (records ++ [(aid, uid)], likes + 1, true)
  else
    (records.eraseP (likePred aid uid), max 0 (likes - 1), false)

/-- Claim C8: starting with no like record for `(announcement, user)` and
a non-negative counter, a first like inserts exactly one record and raises
the counter by 1; an immediately following like by the same user deletes
the record and returns both the record list and the counter exactly to
their pre-like values; and the toggle preserves the invariant that at most
one like record per `(announcement, user)` exists. -/
theorem likeAnnouncement_round_trip (records : List (String × String))
    (likes : Int) (aid uid : String)
    (hno : records.countP (likePred aid uid) = 0) (hpos : 0 ≤ likes) :
    (likeAnnouncement records likes aid uid).1.countP (likePred aid uid) = 1 ∧
    (likeAnnouncement records likes aid uid).2.1 = likes + 1 ∧
    (likeAnnouncement records likes aid uid).2.2 = true ∧
    (likeAnnouncement (likeAnnouncement records likes aid uid).1
        (likeAnnouncement records likes aid uid).2.1 aid uid).1 = records ∧
    (likeAnnouncement (likeAnnouncement records likes aid uid).1
        (likeAnnouncement records likes aid uid).2.1 aid uid).2.1 = likes ∧
    (likeAnnouncement (likeAnnouncement records likes aid uid).1
        (likeAnnouncement records likes aid uid).2.1 aid uid).2.2 = false ∧
    (∀ recs : List (String × String), ∀ L : Int,
        recs.countP (likePred aid uid) ≤ 1 →
        (likeAnnouncement recs L aid uid).1.countP (likePred aid uid) ≤ 1) := by
  have hall : ∀ a ∈ records, ¬ likePred aid uid a = true :=
    List.countP_eq_zero.mp hno
  have hempty : (records.filter (likePred aid uid)).isEmpty = true :=
    List.isEmpty_iff.mpr (List.filter_eq_nil_iff.mpr hall)
  have hself : likePred aid uid (aid, uid) = true := by simp [likePred]
  have hfirst : likeAnnouncement records likes aid uid
      = (records ++ [(aid, uid)], likes + 1, true) := by
    rw [likeAnnouncement]
    simp only [hempty, if_true]
  have hcount1 : (records ++ [(aid, uid)]).countP (likePred aid uid) = 1 := by
    rw [List.countP_append, hno, List.countP_cons]
    simp [hself]
  have hempty2 : ((records ++ [(aid, uid)]).filter
      (likePred aid uid)).isEmpty = false := by
    rw [List.filter_append]
    simp [hself]
  have hsecond : likeAnnouncement (records ++ [(aid, uid)]) (likes + 1) aid uid
      = (records, likes, false) := by
    rw [likeAnnouncement]
    simp only [hempty2, Bool.false_eq_true, if_false]
    refine Prod.ext ?_ (Prod.ext ?_ rfl)
    · show (records ++ [(aid, uid)]).eraseP (likePred aid uid) = records
      rw [eraseP_append_of_none _ _ _
        (fun a ha => Bool.not_eq_true _ ▸ by simpa using hall a ha)]
      simp [List.eraseP_cons, hself]
    · show max 0 (likes + 1 - 1) = likes
      have hsub : likes + 1 - 1 = likes := by ring
      rw [hsub]
      exact max_eq_right hpos
  refine ⟨by rw [hfirst]; exact hcount1, by rw [hfirst], by rw [hfirst],
    ?_, ?_, ?_, ?_⟩
  · rw [hfirst]
    show (likeAnnouncement (records ++ [(aid, uid)]) (likes + 1) aid uid).1 = records
    rw [hsecond]
  · rw [hfirst]
    show (likeAnnouncement (records ++ [(aid, uid)]) (likes + 1) aid uid).2.1 = likes
    rw [hsecond]
  · rw [hfirst]
    show (likeAnnouncement (records ++ [(aid, uid)]) (likes + 1) aid uid).2.2 = false
    rw [hsecond]
  · intro recs L h1
    by_cases he : (recs.filter (likePred aid uid)).isEmpty = true
    · have hzero : recs.countP (likePred aid uid) = 0 :=
        List.countP_eq_zero.mpr (List.filter_eq_nil_iff.mp (List.isEmpty_iff.mp he))
      rw [likeAnnouncement]
      simp only [he, if_true]
      rw [List.countP_append, hzero, List.countP_cons]
      simp [hself]
    · have hposc : 0 < recs.countP (likePred aid uid) := by
        rcases Nat.eq_zero_or_pos (recs.countP (likePred aid uid)) with h0 | h0
        · exact absurd (List.isEmpty_iff.mpr
            (List.filter_eq_nil_iff.mpr (List.countP_eq_zero.mp h0))) he
        · exact h0
      rw [likeAnnouncement]
      simp only [Bool.not_eq_true] at he
      simp only [he, Bool.false_eq_true, if_false]
      have := countP_eraseP_of_pos (likePred aid uid) recs hposc
      omega

/-- Witness for C8: from an empty like collection and counter 0, liking
and unliking returns the collection to empty. -/
theorem likeAnnouncement_round_trip_witness :
    (likeAnnouncement (likeAnnouncement [] 0 "a1" "ua").1
        (likeAnnouncement [] 0 "a1" "ua").2.1 "a1" "ua").1
      = ([] : List (String × String)) :=
  (likeAnnouncement_round_trip [] 0 "a1" "ua" (by decide) (by decide)).2.2.2.1

/-- Embedding of `GET /chat/messages` including the store-unavailable
fallback (chat.ts lines 36-41): when the fetch fails the handler still
responds successfully with an empty list and `total = 0`. -/
def getChatMessagesDb (dbResult : Option (List Message)) (page limit : Nat)
    (before : Option Nat) : PaginatedResponse Message :=
  match dbResult with
  | some stored => getChatMessages stored page limit before
  | none =>
    { data := [], total := 0, page := page, limit := limit,
      hasMore := 0 == limit }

/-- Embedding of `GET /announcements` including the store-unavailable
fallback (announcements.ts lines 45-49). -/
def getAnnouncementsDb (dbResult : Option (List Announcement))
    (page limit now : Nat) (priority societyName : Option String) :
    PaginatedResponse Announcement :=
  match dbResult with
  | some stored => getAnnouncements stored page limit now priority societyName
  | none =>
    { data := [], total := 0, page := page, limit := limit,
      hasMore := decide ((page - 1) * limit + limit < 0) }

/-- Substring test modelling JavaScript `String.prototype.includes`. -/
def strContains (s q : String) : Bool :=
  (s.splitOn q).length != 1

/-- Embedding of `GET /lost-found` (lost-and-found routes, lines 198-263)
including the store-unavailable fallback: the fetch (with status/category
filters, descending timestamp) degrades to an empty item list, after
which the in-handler search filter, `total` and the offset/limit slice
are computed as usual. -/
def getLostFoundItems (dbResult : Option (List LostFoundItem))
    (page limit : Nat) (status category search : Option String) :
    PaginatedResponse LostFoundItem :=
  let items0 : List LostFoundItem := match dbResult with
    | some stored => (stored.filter (fun it : LostFoundItem =>
        (match status with | some s => it.status == s | none => true) &&
        (match category with | some c => it.category == c | none => true))).mergeSort
          (fun a b => decide (b.timestamp ≤ a.timestamp))
    | none => []
  let items := match search with
    | some q => items0.filter (fun it : LostFoundItem =>
        strContains it.title.toLower q.toLower ||
        strContains it.description.toLower q.toLower ||
        strContains it.location.toLower q.toLower)
    | none => items0
  let total := items.length
  let offset := (page - 1) * limit
  { data := (items.drop offset).take limit, total := total, page := page,
    limit := limit, hasMore := decide (offset + limit < total) }

/-- Embedding of `GET /users` including its lack of a fallback: a failing
store query escapes to the outer catch and the endpoint responds with a
500 error instead of a degraded success. -/
def getUsersListDb (dbResult : Option (List User)) (page limit : Nat)
    (batch role : Option String) : Except String (PaginatedResponse User) :=
  match dbResult with
  | some stored => Except.ok (getUsersList stored page limit batch role)
  | none => Except.error "Failed to get users"

/-- Temporary message id synthesized by the create fallback:
`temp_<now>_<random>`. -/
def tempMessageId (now : Nat) (rand : String) : String :=
  "temp_" ++ (toString now ++ "_" ++ rand)

/-- Embedding of `POST /chat/messages` including the store-unavailable
fallback (chat.ts lines 93-100): when the insert fails the handler still
responds with a 201 success carrying the message under a synthesized
`temp_`-prefixed id, and nothing is persisted. -/
def restSendMessageDb (dbAvailable : Bool) (st : ChatStore) (caller : User)
    (content : String) (now : Nat) (docId rand : String) :
    Except String (ChatStore × Message) :=
  if (strTrim content).length == 0 then
    Except.error "Message content is required"
  else
    let message : Message :=
      { id := if dbAvailable then docId else tempMessageId now rand,
        content := strTrim content, authorId := caller.id,
        authorName := caller.name, authorBatch := caller.batch,
        timestamp := now, reactions := [] }
    if dbAvailable then
      Except.ok ({ st with messages := st.messages ++ [message] }, message)
    else
      Except.ok (st, message)

/-- Claim C9 counterexample: with the store unavailable, the users list
endpoint does not degrade to a success with an empty result set — it
responds with a 500-type error — refuting the claim that every list
endpoint degrades. -/
theorem users_list_unavailable_counterexample :
    getUsersListDb none 1 20 none none = Except.error "Failed to get users" :=
  rfl

/-- Claim C9 (amended): when the document store is unavailable, the
chat-message, announcement, and lost-found list endpoints respond
successfully with an empty result set and `total = 0`, and the
chat-message create endpoint responds with a 201-shaped success whose id
is a locally synthesized `temp_`-prefixed id and persists nothing; the
users list endpoint has no such fallback and responds with an error. -/
theorem degraded_mode_contract (page limit now : Nat) (before : Option Nat)
    (priority soc status cat search batch role : Option String)
    (st : ChatStore) (caller : User) (content : String) (now2 : Nat)
    (docId rand : String) (hc : (strTrim content).length ≠ 0) :
    (getChatMessagesDb none page limit before).data = [] ∧
    (getChatMessagesDb none page limit before).total = 0 ∧
    (getAnnouncementsDb none page limit now priority soc).data = [] ∧
    (getAnnouncementsDb none page limit now priority soc).total = 0 ∧
    (getLostFoundItems none page limit status cat search).data = [] ∧
    (getLostFoundItems none page limit status cat search).total = 0 ∧
    (∃ e, getUsersListDb none page limit batch role = Except.error e) ∧
    (∃ r suffix, restSendMessageDb false st caller content now2 docId rand
        = Except.ok r ∧ r.2.id = "temp_" ++ suffix ∧ r.1 = st) := by
  refine ⟨rfl, rfl, rfl, rfl, ?_, ?_, ⟨_, rfl⟩, ?_⟩
  · cases search <;> simp [getLostFoundItems]
  · cases search <;> simp [getLostFoundItems]
  · refine ⟨(st,
      { id := tempMessageId now2 rand, content := strTrim content,
        authorId := caller.id, authorName := caller.name,
        authorBatch := caller.batch, timestamp := now2, reactions := [] }),
      toString now2 ++ "_" ++ rand, ?_, rfl, rfl⟩
    rw [restSendMessageDb, if_neg (by simpa using hc)]
    rfl

/-- Witness for C9 (amended): the degraded chat list at concrete
parameters is empty, with the non-empty-content hypothesis discharged at
content `"Hello"`. -/
theorem degraded_mode_contract_witness :
    (getChatMessagesDb none 1 20 none).data = [] :=
  (degraded_mode_contract 1 20 0 none none none none none none none none
    cs0 uA "Hello" 100 "d1" "r1" (by decide)).1
